import Mathlib

/-!
Shallow embedding of the sudoku backtracking solver (src/main.rs) and
verification of its specified properties.

The Rust program enumerates completions of a 4x4 (block side 2) grid.
Pure data is translated directly; the mutable methods become functions
`State -> Bool x State` returning the Rust method's boolean result next to
the updated state; the `assert!` calls in `SolvedGrid::from_psg` become an
`Option` result (`none` = assertion failure / panic); the unbounded `loop`
in `GridSolver::next` becomes fuel-indexed recursion (`none` = fuel ran
out, which the real loop never does on the runs examined here).
-/

namespace Sudoku

/-- The `Digit` enum of the source: four values, in `EnumIter` order. -/
inductive Digit where
  | one
  | two
  | three
  | four
deriving DecidableEq, Repr

/-- Numeric value of a digit (`Digit as u8`, discriminants 1..4). -/
def Digit.toNat : Digit → Nat
  | .one => 1
  | .two => 2
  | .three => 3
  | .four => 4

/-- `Digit::iter()` of strum: all digits in declaration order. -/
def Digit.iterAll : List Digit := [.one, .two, .three, .four]

/-- `type Cell = Option<Digit>` -/
abbrev Cell := Option Digit

/-- `impl Next for Cell { fn get_all_next }`: the digits strictly after the
current one in iteration order; all digits when the cell is empty. -/
def get_all_next : Cell → List Digit
  | none => Digit.iterAll
  | some base_digit => (Digit.iterAll.dropWhile (fun d => d ≠ base_digit)).drop 1

/-- `const BLOCK_SIDE: usize = 2` -/
def BLOCK_SIDE : Nat := 2

/-- `const NB_DIGIT: usize = BLOCK_SIDE * BLOCK_SIDE` -/
def NB_DIGIT : Nat := BLOCK_SIDE * BLOCK_SIDE

/-- `const NB_CELL: usize = NB_DIGIT * NB_DIGIT` -/
def NB_CELL : Nat := NB_DIGIT * NB_DIGIT

/-- `struct Grid { data: [Cell; NB_CELL] }`, as a list of cells; reads are
`getD _ none` (all reads performed by the program are in bounds). -/
structure Grid where
  data : List Cell
deriving DecidableEq, Repr

/-- `Grid::empty()` -/
def Grid.empty : Grid := ⟨List.replicate NB_CELL none⟩

/-- `Grid::can_accept_digit_at_pos`: the digit is absent from the row, the
column and the block of `pos`.  Index arithmetic is copied from the source. -/
def Grid.can_accept_digit_at_pos (g : Grid) (d : Digit) (pos : Nat) : Bool :=
  let line_does_not_contain_digit :=
    (List.range NB_DIGIT).all fun column =>
      decide (g.data.getD (pos / NB_DIGIT * NB_DIGIT + column) none ≠ some d)
  let column_does_not_contain_digit :=
    (List.range NB_DIGIT).all fun line =>
      decide (g.data.getD (pos % NB_DIGIT + line * NB_DIGIT) none ≠ some d)
  let block_does_not_contain_digit :=
    (List.range BLOCK_SIDE).all fun y =>
      (List.range BLOCK_SIDE).all fun x =>
        decide (g.data.getD
          ((y + pos / NB_DIGIT / BLOCK_SIDE * BLOCK_SIDE) * NB_DIGIT
            + (x + pos % NB_DIGIT / BLOCK_SIDE * BLOCK_SIDE)) none ≠ some d)
  line_does_not_contain_digit && column_does_not_contain_digit
    && block_does_not_contain_digit

/-- `struct PartialySolvedGrid` (source doc): all cells strictly before
`fill_until` are filled, later cells may or may not be. -/
structure PartialySolvedGrid where
  grid : Grid
  fill_until : Nat
deriving DecidableEq, Repr

/-- `PartialySolvedGrid::try_fill_next_cell`, returning the Rust `bool`
next to the updated state. -/
def PartialySolvedGrid.try_fill_next_cell (psg : PartialySolvedGrid) :
    Bool × PartialySolvedGrid :=
  if psg.fill_until = psg.grid.data.length then (false, psg)
  else
    match psg.grid.data.getD psg.fill_until none with
    | some _ => (true, ⟨psg.grid, psg.fill_until + 1⟩)
    | none =>
      match Digit.iterAll.find?
          (fun d => psg.grid.can_accept_digit_at_pos d psg.fill_until) with
      | some d =>
        (true, ⟨⟨psg.grid.data.set psg.fill_until (some d)⟩, psg.fill_until + 1⟩)
      | none => (false, psg)

/-- `PartialySolvedGrid::try_increment_cell_at_index`: take the digit out of
the cell, try every strictly greater digit against the grid with the cell
cleared; on failure decrement `fill_until`. -/
def PartialySolvedGrid.try_increment_cell_at_index (psg : PartialySolvedGrid)
    (cell_index : Nat) : Bool × PartialySolvedGrid :=
  let original_digit := psg.grid.data.getD cell_index none
  let taken : Grid := ⟨psg.grid.data.set cell_index none⟩
  match (get_all_next original_digit).find?
      (fun d => taken.can_accept_digit_at_pos d cell_index) with
  | some d => (true, ⟨⟨taken.data.set cell_index (some d)⟩, psg.fill_until⟩)
  | none => (false, ⟨taken, psg.fill_until - 1⟩)

/-- `struct GridSolver` (the borrowed `initial_grid` becomes a copied field;
the program never mutates it). -/
structure GridSolver where
  initial_grid : Grid
  psg : PartialySolvedGrid
deriving DecidableEq, Repr

/-- `GridSolver::from_grid` -/
def GridSolver.from_grid (grid : Grid) : GridSolver :=
  ⟨grid, ⟨grid, 0⟩⟩

/-- The local `guessed_cells` function of `make_progress`: indices below
`fill_until`, in decreasing order, whose cell is empty in the initial grid. -/
def guessed_cells (fill_until : Nat) (initial_grid_data : List Cell) : List Nat :=
  ((List.range fill_until).reverse).filter
    (fun cell_index => (initial_grid_data.getD cell_index none).isNone)

/-- The `for guessed_cell in guessed_cells` loop of `make_progress`:
return on the first successful increment, otherwise keep the state left by
each failed attempt and continue. -/
def increment_loop : List Nat → PartialySolvedGrid → Bool × PartialySolvedGrid
  | [], psg => (false, psg)
  | i :: rest, psg =>
    match psg.try_increment_cell_at_index i with
    | (true, psg') => (true, psg')
    | (false, psg') => increment_loop rest psg'

/-- `GridSolver::make_progress` -/
def GridSolver.make_progress (s : GridSolver) : Bool × GridSolver :=
  match s.psg.try_fill_next_cell with
  | (true, psg') => (true, ⟨s.initial_grid, psg'⟩)
  | (false, psg') =>
    let gcs := guessed_cells psg'.fill_until s.initial_grid.data
    match increment_loop gcs psg' with
    | (b, psg'') => (b, ⟨s.initial_grid, psg''⟩)

/-- `SolvedGrid::from_psg`: the two `assert!`s become an `Option`; `none`
models the panic (assertion failure). -/
def SolvedGrid.from_psg (psg : PartialySolvedGrid) : Option Grid :=
  if psg.fill_until = NB_CELL ∧ psg.grid.data.all (fun c => c.isSome)
  then some psg.grid
  else none

/-- Observable outcome of one call of `GridSolver::next`. -/
inductive NextOutcome where
  | yield (g : Grid)
  | exhausted
  | panicked
deriving DecidableEq, Repr

/-- `GridSolver::next` (the `Iterator` impl), with fuel for the `loop`;
`none` means the fuel ran out before the loop returned.  `yield g` is
`Some(g)`, `exhausted` is `None`, `panicked` is the `from_psg` assertion
failing. -/
def GridSolver.nextFuel : Nat → GridSolver → Option (NextOutcome × GridSolver)
  | 0, _ => none
  | fuel + 1, s =>
    if s.psg.fill_until = NB_CELL then
      match SolvedGrid.from_psg s.psg with
      | some g => some (NextOutcome.yield g, s.make_progress.2)
      | none => some (NextOutcome.panicked, s)
    else
      match s.make_progress with
      | (false, s') => some (NextOutcome.exhausted, s')
      | (true, s') => GridSolver.nextFuel fuel s'

/-- The solution sequence: repeated calls of `next` flattened into one
fuel-indexed list of yielded grids (stops at exhaustion, panic or fuel). -/
def GridSolver.runFuel : Nat → GridSolver → List Grid
  | 0, _ => []
  | fuel + 1, s =>
    if s.psg.fill_until = NB_CELL then
      match SolvedGrid.from_psg s.psg with
      | some g => g :: GridSolver.runFuel fuel s.make_progress.2
      | none => []
    else
      match s.make_progress with
      | (false, _) => []
      | (true, s') => GridSolver.runFuel fuel s'

/-- Iterating `make_progress` (the only state-changing step the driver
performs), keeping the state. -/
def mpIter : Nat → GridSolver → GridSolver
  | 0, s => s
  | n + 1, s => mpIter n s.make_progress.2

/-- Cursor values at which the driver invokes `make_progress` during one
call of `next`.  `make_progress` begins by invoking `try_fill_next_cell`
on its input state, so these are exactly the `fill_until` values at which
the advance operation is invoked. -/
def GridSolver.nextCursors : Nat → GridSolver → List Nat
  | 0, _ => []
  | fuel + 1, s =>
    if s.psg.fill_until = NB_CELL then
      match SolvedGrid.from_psg s.psg with
      | some _ => [s.psg.fill_until]
      | none => []
    else
      s.psg.fill_until ::
        (match s.make_progress with
         | (false, _) => []
         | (true, s') => GridSolver.nextCursors fuel s')

/-- Spec-side predicate: positions `p` and `q` share a row, a column or a
`BLOCK_SIDE x BLOCK_SIDE` block (a position shares all three with itself). -/
def sameUnit (p q : Nat) : Prop :=
  q / NB_DIGIT = p / NB_DIGIT ∨ q % NB_DIGIT = p % NB_DIGIT ∨
    (q / NB_DIGIT / BLOCK_SIDE = p / NB_DIGIT / BLOCK_SIDE ∧
      q % NB_DIGIT / BLOCK_SIDE = p % NB_DIGIT / BLOCK_SIDE)

instance (p q : Nat) : Decidable (sameUnit p q) := by
  unfold sameUnit; infer_instance

/-- Spec-side: the working grid agrees with the starting grid on every
given (filled) cell of the starting grid. -/
def agreesGivens (g w : Grid) : Prop :=
  ∀ i d, g.data.getD i none = some d → w.data.getD i none = some d

/-- Spec-side: no digit occurs at two distinct positions sharing a row,
column or block. -/
def gridConsistent (g : Grid) : Bool :=
  (List.range NB_CELL).all fun p =>
    (List.range NB_CELL).all fun q =>
      decide (p = q) || !(decide (sameUnit p q))
        || decide (g.data.getD p none = none)
        || decide (g.data.getD p none ≠ g.data.getD q none)

/-- The claimed invariant of `PartialySolvedGrid`: every cell strictly
below `fill_until` is filled, and the whole grid is consistent. -/
def psgInvariant (psg : PartialySolvedGrid) : Bool :=
  ((List.range psg.fill_until).all fun i => (psg.grid.data.getD i none).isSome)
    && gridConsistent psg.grid

/-- Value of a cell when a grid is read as a numeral (`0` for empty). -/
def cellVal : Cell → Nat
  | none => 0
  | some d => d.toNat

/-- The grid's cells read in index order, index 0 most significant, as the
digits of a base-`NB_DIGIT` number. -/
def Grid.toNumber (g : Grid) : Nat :=
  g.data.foldl (fun acc c => acc * NB_DIGIT + cellVal c) 0

/-- Test-style literal grids: `0` is an empty cell, `1..=4` the digits
(mirrors `Grid::from_u8s`). -/
def cellOfNat : Nat → Cell
  | 1 => some .one
  | 2 => some .two
  | 3 => some .three
  | 4 => some .four
  | _ => none

/-- Build a grid from the compact numeric form. -/
def gridOfNats (l : List Nat) : Grid := ⟨l.map cellOfNat⟩

/-- First solution of the empty grid (also used as a fully-given grid). -/
def sol1 : Grid := gridOfNats
  [1, 2, 3, 4,
   3, 4, 1, 2,
   2, 1, 4, 3,
   4, 3, 2, 1]

/-- Second solution of the empty grid. -/
def sol2 : Grid := gridOfNats
  [1, 2, 3, 4,
   3, 4, 1, 2,
   2, 3, 4, 1,
   4, 1, 2, 3]

/-- `sol1` with cells 9 and 10 left open: a starting grid whose only
solution is `sol1`, with givens after the open cells. -/
def gOpen : Grid := gridOfNats
  [1, 2, 3, 4,
   3, 4, 1, 2,
   2, 0, 0, 3,
   4, 3, 2, 1]

/-- A grid holding the digit 1 at position 0 and nothing else. -/
def gOneAtZero : Grid := ⟨(some Digit.one) :: List.replicate 15 none⟩

/-! Helper lemmas about `List.getD` after `List.set`. -/

theorem getD_set_of_ne (l : List Cell) (v : Cell) (i j : Nat) (h : i ≠ j) :
    (l.set i v).getD j none = l.getD j none := by
  simp [List.getD_eq_getElem?_getD, List.getElem?_set_ne h]

theorem getD_set_none (l : List Cell) (i : Nat) :
    (l.set i none).getD i none = none := by
  rw [List.getD_eq_getElem?_getD]
  by_cases h : i < l.length
  · rw [List.getElem?_set_self h]
    rfl
  · rw [List.getElem?_eq_none (by simpa using Nat.le_of_not_lt h)]
    rfl

/-- C1 (counterexample): on the grid holding only a `1` at position 0, no
position other than 0 holds a `1`, yet `can_accept_digit_at_pos 1 0` is
`false` — the scan also inspects position 0 itself, so the claim's
"returns true otherwise" fails here. -/
theorem can_accept_counterexample :
    (∀ q ∈ List.range NB_CELL, q ≠ 0 → sameUnit 0 q →
      gOneAtZero.data.getD q none ≠ some Digit.one)
    ∧ gOneAtZero.can_accept_digit_at_pos Digit.one 0 = false := by
  decide

/-- C1 (amended): for `p < N²`, `can_accept_digit_at_pos d p` is `true` iff
`d` occupies no position sharing `p`'s row, column or block — where `p`
itself counts among those positions. -/
theorem can_accept_characterization (g : Grid) (d : Digit) (p : Nat)
    (hp : p < NB_CELL) :
    g.can_accept_digit_at_pos d p = true ↔
      ∀ q, q < NB_CELL → sameUnit p q → g.data.getD q none ≠ some d := by
  simp only [Grid.can_accept_digit_at_pos, Bool.and_eq_true, List.all_eq_true,
    List.mem_range, decide_eq_true_eq, sameUnit, NB_CELL, NB_DIGIT,
    BLOCK_SIDE] at *
  constructor
  · rintro ⟨⟨hrow, hcol⟩, hblk⟩ q hq hsame
    rcases hsame with h | h | ⟨h1, h2⟩
    · have hr := hrow (q % (2 * 2)) (by omega)
      have hidx : p / (2 * 2) * (2 * 2) + q % (2 * 2) = q := by omega
      rwa [hidx] at hr
    · have hc := hcol (q / (2 * 2)) (by omega)
      have hidx : p % (2 * 2) + q / (2 * 2) * (2 * 2) = q := by omega
      rwa [hidx] at hc
    · have hb := hblk (q / (2 * 2) % 2) (by omega) (q % (2 * 2) % 2) (by omega)
      have hidx : (q / (2 * 2) % 2 + p / (2 * 2) / 2 * 2) * (2 * 2)
          + (q % (2 * 2) % 2 + p % (2 * 2) / 2 * 2) = q := by omega
      rwa [hidx] at hb
  · intro h
    refine ⟨⟨fun column hcolumn => ?_, fun line hline => ?_⟩,
      fun y hy x hx => ?_⟩
    · exact h (p / (2 * 2) * (2 * 2) + column) (by omega) (Or.inl (by omega))
    · exact h (p % (2 * 2) + line * (2 * 2)) (by omega)
        (Or.inr (Or.inl (by omega)))
    · exact h ((y + p / (2 * 2) / 2 * 2) * (2 * 2)
          + (x + p % (2 * 2) / 2 * 2)) (by omega)
        (Or.inr (Or.inr ⟨by omega, by omega⟩))

/-- Witness for `can_accept_characterization` at a concrete input: the empty
grid accepts the digit 1 at position 0. -/
theorem can_accept_characterization_witness :
    Grid.empty.can_accept_digit_at_pos Digit.one 0 = true :=
  (can_accept_characterization Grid.empty Digit.one 0 (by decide)).mpr
    (by decide)

/-- C10: when `fill_until` already equals `N²` (= the grid length),
`try_fill_next_cell` reports failure and leaves the state unchanged. -/
theorem try_fill_at_end_noop (psg : PartialySolvedGrid)
    (hlen : psg.grid.data.length = NB_CELL) (hfu : psg.fill_until = NB_CELL) :
    psg.try_fill_next_cell = (false, psg) := by
  unfold PartialySolvedGrid.try_fill_next_cell
  rw [if_pos (by rw [hlen, hfu])]

/-- Witness for `try_fill_at_end_noop`: the fully filled grid `sol2` with
cursor 16. -/
theorem try_fill_at_end_noop_witness :
    (PartialySolvedGrid.mk sol2 16).try_fill_next_cell
      = (false, PartialySolvedGrid.mk sol2 16) :=
  try_fill_at_end_noop ⟨sol2, 16⟩ (by decide) (by decide)

/-- C7: when `try_increment_cell_at_index` is invoked on a cell at index
`i` below `fill_until` and no strictly greater candidate digit is accepted,
it reports failure, leaves the cell at `i` empty, decreases `fill_until`
by exactly one, and changes no other cell of the grid. -/
theorem redecide_exhausted_behavior (psg : PartialySolvedGrid) (i : Nat)
    (hi : i < psg.fill_until)
    (hfail : ∀ d ∈ get_all_next (psg.grid.data.getD i none),
      (Grid.mk (psg.grid.data.set i none)).can_accept_digit_at_pos d i
        = false) :
    psg.try_increment_cell_at_index i
        = (false, ⟨⟨psg.grid.data.set i none⟩, psg.fill_until - 1⟩)
      ∧ (psg.try_increment_cell_at_index i).2.grid.data.getD i none = none
      ∧ (psg.try_increment_cell_at_index i).2.fill_until + 1 = psg.fill_until
      ∧ ∀ j, j ≠ i →
          (psg.try_increment_cell_at_index i).2.grid.data.getD j none
            = psg.grid.data.getD j none := by
  have hnone : (get_all_next (psg.grid.data.getD i none)).find?
      (fun d => (Grid.mk (psg.grid.data.set i none)).can_accept_digit_at_pos
        d i) = none := by
    rw [List.find?_eq_none]
    intro d hd
    simp [hfail d hd]
  have heq : psg.try_increment_cell_at_index i
      = (false, ⟨⟨psg.grid.data.set i none⟩, psg.fill_until - 1⟩) := by
    simp only [PartialySolvedGrid.try_increment_cell_at_index, hnone]
  refine ⟨heq, ?_, ?_, ?_⟩
  · rw [heq]
    exact getD_set_none psg.grid.data i
  · rw [heq]
    simpa using by omega
  · intro j hj
    rw [heq]
    exact getD_set_of_ne psg.grid.data none i j (Ne.symm hj)

/-- Witness for `redecide_exhausted_behavior`: cell 10 of the full grid
`sol1` holds the maximal digit 4, so there is no greater candidate. -/
theorem redecide_exhausted_behavior_witness :
    (PartialySolvedGrid.mk sol1 16).try_increment_cell_at_index 10
      = (false, ⟨⟨sol1.data.set 10 none⟩, 15⟩) :=
  (redecide_exhausted_behavior ⟨sol1, 16⟩ 10 (by decide) (by decide)).1

/-! Preservation of the given cells (claim C6). -/

theorem agreesGivens_refl (g : Grid) : agreesGivens g g := fun _ _ h => h

theorem try_fill_preserves_agrees (g : Grid) (psg : PartialySolvedGrid)
    (h : agreesGivens g psg.grid) :
    agreesGivens g psg.try_fill_next_cell.2.grid := by
  unfold PartialySolvedGrid.try_fill_next_cell
  by_cases hend : psg.fill_until = psg.grid.data.length
  · rw [if_pos hend]
    exact h
  · rw [if_neg hend]
    cases hcell : psg.grid.data.getD psg.fill_until none with
    | some d => simp only [hcell]; exact h
    | none =>
      simp only [hcell]
      cases hfind : Digit.iterAll.find?
          (fun d => psg.grid.can_accept_digit_at_pos d psg.fill_until) with
      | none => simp only [hfind]; exact h
      | some d =>
        simp only [hfind]
        intro i e hie
        rcases eq_or_ne i psg.fill_until with heq | hne
        · exfalso
          have hx := h i e hie
          rw [heq, hcell] at hx
          cases hx
        · rw [getD_set_of_ne _ _ _ _ (Ne.symm hne)]
          exact h i e hie

theorem try_increment_preserves_agrees (g : Grid) (psg : PartialySolvedGrid)
    (i : Nat) (hgi : g.data.getD i none = none) (h : agreesGivens g psg.grid) :
    agreesGivens g (psg.try_increment_cell_at_index i).2.grid := by
  simp only [PartialySolvedGrid.try_increment_cell_at_index]
  cases hfind : (get_all_next (psg.grid.data.getD i none)).find?
      (fun d => (Grid.mk (psg.grid.data.set i none)).can_accept_digit_at_pos
        d i) with
  | some d =>
    simp only [hfind]
    intro j e hje
    have hji : j ≠ i := fun hji => by rw [hji, hgi] at hje; cases hje
    rw [getD_set_of_ne _ _ _ _ (Ne.symm hji),
      getD_set_of_ne _ _ _ _ (Ne.symm hji)]
    exact h j e hje
  | none =>
    simp only [hfind]
    intro j e hje
    have hji : j ≠ i := fun hji => by rw [hji, hgi] at hje; cases hje
    rw [getD_set_of_ne _ _ _ _ (Ne.symm hji)]
    exact h j e hje

theorem increment_loop_preserves_agrees (g : Grid) (l : List Nat) :
    ∀ psg : PartialySolvedGrid,
      (∀ i ∈ l, g.data.getD i none = none) → agreesGivens g psg.grid →
      agreesGivens g (increment_loop l psg).2.grid := by
  induction l with
  | nil =>
    intro psg _ h
    exact h
  | cons i rest ih =>
    intro psg hl h
    have h2 := try_increment_preserves_agrees g psg i
      (hl i (List.mem_cons_self i rest)) h
    cases hstep : psg.try_increment_cell_at_index i with
    | mk b psg' =>
      rw [hstep] at h2
      cases b
      · simp only [increment_loop, hstep]
        exact ih psg' (fun j hj => hl j (List.mem_cons_of_mem _ hj)) h2
      · simp only [increment_loop, hstep]
        exact h2

theorem make_progress_preserves (g : Grid) (s : GridSolver)
    (hinit : s.initial_grid = g) (h : agreesGivens g s.psg.grid) :
    s.make_progress.2.initial_grid = g
      ∧ agreesGivens g s.make_progress.2.psg.grid := by
  unfold GridSolver.make_progress
  have h1 := try_fill_preserves_agrees g s.psg h
  cases hfill : s.psg.try_fill_next_cell with
  | mk b psg' =>
    rw [hfill] at h1
    cases b
    · have hmem : ∀ i ∈ guessed_cells psg'.fill_until s.initial_grid.data,
          g.data.getD i none = none := by
        intro i hi
        have hfilt := (List.mem_filter.mp hi).2
        rw [hinit] at hfilt
        exact Option.isNone_iff_eq_none.mp (by simpa using hfilt)
      have h3 := increment_loop_preserves_agrees g
        (guessed_cells psg'.fill_until s.initial_grid.data) psg' hmem h1
      cases hloop : increment_loop
          (guessed_cells psg'.fill_until s.initial_grid.data) psg' with
      | mk b2 psg'' =>
        rw [hloop] at h3
        simp only [hfill, hloop]
        exact ⟨hinit, h3⟩
    · simp only [hfill]
      exact ⟨hinit, h1⟩

theorem mpIter_preserves (g : Grid) :
    ∀ (n : Nat) (s : GridSolver), s.initial_grid = g →
      agreesGivens g s.psg.grid →
      (mpIter n s).initial_grid = g ∧ agreesGivens g (mpIter n s).psg.grid := by
  intro n
  induction n with
  | zero =>
    intro s h1 h2
    exact ⟨h1, h2⟩
  | succ k ih =>
    intro s h1 h2
    have h3 := make_progress_preserves g s h1 h2
    exact ih s.make_progress.2 h3.1 h3.2

theorem runFuel_agrees (g : Grid) :
    ∀ (fuel : Nat) (s : GridSolver), s.initial_grid = g →
      agreesGivens g s.psg.grid →
      ∀ sol ∈ GridSolver.runFuel fuel s, agreesGivens g sol := by
  intro fuel
  induction fuel with
  | zero =>
    intro s _ _ sol hsol
    simp [GridSolver.runFuel] at hsol
  | succ k ih =>
    intro s h1 h2 sol hsol
    unfold GridSolver.runFuel at hsol
    by_cases hfu : s.psg.fill_until = NB_CELL
    · rw [if_pos hfu] at hsol
      cases hfp : SolvedGrid.from_psg s.psg with
      | none =>
        rw [hfp] at hsol
        simp at hsol
      | some g' =>
        rw [hfp] at hsol
        have hg' : g' = s.psg.grid := by
          unfold SolvedGrid.from_psg at hfp
          split at hfp
          · exact (Option.some.injEq _ _ ▸ hfp).symm ▸ rfl
          · cases hfp
        have h3 := make_progress_preserves g s h1 h2
        rcases List.mem_cons.mp hsol with rfl | hmem
        · rw [hg']
          exact h2
        · exact ih s.make_progress.2 h3.1 h3.2 sol hmem
    · rw [if_neg hfu] at hsol
      cases hmp : s.make_progress with
      | mk b s' =>
        rw [hmp] at hsol
        have h3 := make_progress_preserves g s h1 h2
        rw [hmp] at h3
        cases b
        · simp at hsol
        · exact ih s' h3.1 h3.2 sol hsol

/-- C6: for every starting grid with at least one given, every solution the
search yields (over the whole sequence, any amount of fuel) agrees with the
starting grid on every given cell, and no iteration of `make_progress` ever
alters a given cell of the working grid. -/
theorem clue_invariance (g : Grid)
    (hg : ∃ i, (g.data.getD i none).isSome = true) :
    (∀ fuel sol, sol ∈ GridSolver.runFuel fuel (GridSolver.from_grid g) →
      ∀ i d, g.data.getD i none = some d → sol.data.getD i none = some d)
    ∧ (∀ n i d, g.data.getD i none = some d →
        (mpIter n (GridSolver.from_grid g)).psg.grid.data.getD i none
          = some d) := by
  constructor
  · intro fuel sol hsol i d hid
    exact runFuel_agrees g fuel (GridSolver.from_grid g) rfl
      (agreesGivens_refl g) sol hsol i d hid
  · intro n i d hid
    exact (mpIter_preserves g n (GridSolver.from_grid g) rfl
      (agreesGivens_refl g)).2 i d hid

/-- Witness for `clue_invariance`: starting from the fully given grid
`sol1`, the yielded solution keeps the given `1` at cell 0. -/
theorem clue_invariance_witness : sol1.data.getD 0 none = some Digit.one :=
  (clue_invariance sol1 ⟨0, by decide⟩).1 17 sol1 (by decide) 0 Digit.one
    (by decide)

/-- C4: starting from the empty grid, the first solution the iterator
yields is `sol1` (rows 1234 / 3412 / 2143 / 4321) and the second is `sol2`
(rows 1234 / 3412 / 2341 / 4123). -/
theorem first_two_solutions_from_empty :
    (GridSolver.nextFuel 20 (GridSolver.from_grid Grid.empty)).map Prod.fst
        = some (NextOutcome.yield sol1)
      ∧ ((GridSolver.nextFuel 20 (GridSolver.from_grid Grid.empty)).bind
          (fun p => GridSolver.nextFuel 20 p.2)).map Prod.fst
        = some (NextOutcome.yield sol2) := by
  decide

/-- C2 (code bug): with the fully given grid `sol1`, after 16 steps the
search reaches the cursor-16 state, `make_progress` there reports failure
(exhaustion) without changing the state — yet the next request still yields
the solution again instead of reporting none. -/
theorem exhaustion_not_sticky :
    mpIter 16 (GridSolver.from_grid sol1)
        = GridSolver.mk sol1 ⟨sol1, 16⟩
      ∧ (GridSolver.mk sol1 ⟨sol1, 16⟩).make_progress
        = (false, GridSolver.mk sol1 ⟨sol1, 16⟩)
      ∧ GridSolver.nextFuel 3 (GridSolver.mk sol1 ⟨sol1, 16⟩)
        = some (NextOutcome.yield sol1, GridSolver.mk sol1 ⟨sol1, 16⟩) := by
  decide

/-- C3 (code bug): starting from `gOpen` (givens everywhere except cells 9
and 10), the state reached after 16 steps satisfies the claimed invariant
with `fill_until = 16`, but one further `make_progress` (the backtracking
step) leaves `fill_until = 14` while cell 9 is empty — the invariant is not
preserved, because `try_increment_cell_at_index` decrements `fill_until` by
one regardless of which cell it cleared. -/
theorem invariant_broken_by_redecide :
    psgInvariant (mpIter 16 (GridSolver.from_grid gOpen)).psg = true
      ∧ (mpIter 16 (GridSolver.from_grid gOpen)).psg.fill_until = 16
      ∧ psgInvariant
          ((mpIter 16 (GridSolver.from_grid gOpen)).make_progress).2.psg
        = false
      ∧ ((mpIter 16 (GridSolver.from_grid gOpen)).make_progress).2.psg.fill_until
        = 14
      ∧ ((mpIter 16
          (GridSolver.from_grid gOpen)).make_progress).2.psg.grid.data.getD
          9 none = none := by
  decide

/-- C5 (code bug): starting from the fully given grid `sol1`, the iterator
yields the same grid over and over, so the base-N readings of consecutive
yielded solutions are not strictly increasing. -/
theorem yield_order_not_strictly_increasing :
    GridSolver.runFuel 19 (GridSolver.from_grid sol1) = [sol1, sol1, sol1]
      ∧ ¬ sol1.toNumber < sol1.toNumber := by
  exact ⟨by decide, by omega⟩

/-- C9 (code bug): starting from `gOpen`, the first request yields `sol1`,
but the second request reaches a state with `fill_until = 16` in which
cells 9 and 10 of the working grid are empty, so the `SolvedGrid::from_psg`
assertion that every cell is filled fails (a panic, modelled as
`panicked`). -/
theorem snapshot_assert_fails :
    (GridSolver.nextFuel 40 (GridSolver.from_grid gOpen)).map Prod.fst
        = some (NextOutcome.yield sol1)
      ∧ ((GridSolver.nextFuel 40 (GridSolver.from_grid gOpen)).bind
          (fun p => GridSolver.nextFuel 10 p.2)).map Prod.fst
        = some NextOutcome.panicked := by
  decide

/-- C8 (counterexample): in the run from the empty grid, the driver does
invoke `make_progress` — whose first action is to invoke
`try_fill_next_cell` on its input state — while `fill_until` equals
`N² = 16`: the priming step right after snapshotting a solution. -/
theorem advance_invoked_at_full_cursor :
    16 ∈ GridSolver.nextCursors 20 (GridSolver.from_grid Grid.empty) := by
  decide

/-- C8 (amended): the advance operation is invoked at `fill_until = N²`
(during the priming step after each yielded solution), and the guard
against that state lives inside `try_fill_next_cell` itself, which reports
failure and leaves the state unchanged there. -/
theorem advance_guard_is_internal :
    16 ∈ GridSolver.nextCursors 20 (GridSolver.from_grid Grid.empty)
      ∧ ∀ psg : PartialySolvedGrid,
          psg.fill_until = psg.grid.data.length →
          psg.try_fill_next_cell = (false, psg) := by
  constructor
  · decide
  · intro psg h
    unfold PartialySolvedGrid.try_fill_next_cell
    rw [if_pos h]

/-- Witness for `advance_guard_is_internal` at a concrete state. -/
theorem advance_guard_is_internal_witness :
    (PartialySolvedGrid.mk sol1 16).try_fill_next_cell
      = (false, PartialySolvedGrid.mk sol1 16) :=
  advance_guard_is_internal.2 ⟨sol1, 16⟩ (by decide)

end Sudoku
